import Mathlib

/-!
Shallow embedding of the Discord_VoteBot core (vote engine, poll lifecycle,
closure scheduler) and proofs of the specification claims about it.

The embedding follows the TypeScript source:
  src/services/voteService.ts   (VoteService.castVote, VoteService.getPollResults)
  src/commands/poll.ts          (closePoll)
  src/jobs/pollCloser.ts        (addPollCloseJob, removePollCloseJob,
                                 createPollCloseWorker processing callback)
The persistent store (prisma over PostgreSQL) is modelled as explicit state:
a list of polls and a list of vote rows.  Store calls that can fail carry an
explicit error channel.  Timestamps are integers (milliseconds).
-/

namespace VoteBot

/-- Poll status enum of the schema: OPEN or CLOSED. -/
inductive PollStatus
  | OPEN
  | CLOSED
deriving DecidableEq

/-- A poll option row: id, text, emoji, display position. -/
structure PollOption where
  id : String
  text : String
  emoji : String
  position : Nat
deriving DecidableEq

/-- A poll row, with the fields the modelled operations read. -/
structure Poll where
  id : String
  title : String
  creatorId : String
  allowMultiple : Bool
  isAnonymous : Bool
  status : PollStatus
  expiresAt : Option Int
  options : List PollOption
deriving DecidableEq

/-- A vote row: the triple (pollId, userId, optionId) plus its row id. -/
structure Vote where
  id : String
  pollId : String
  userId : String
  optionId : String
deriving DecidableEq

/-- The relational store: poll rows and vote rows. -/
structure Store where
  polls : List Poll
  votes : List Vote
deriving DecidableEq

/-- prisma.poll.findUnique by id. -/
def findPoll (s : Store) (pollId : String) : Option Poll :=
  s.polls.find? (fun p => p.id == pollId)

/-- The votes of one user on one poll, as loaded by the include clause
votes: where userId of castVote. -/
def userPollVotes (s : Store) (pollId userId : String) : List Vote :=
  s.votes.filter (fun v => v.pollId == pollId && v.userId == userId)

/-- The expiry test of castVote: poll.expiresAt and poll.expiresAt strictly
before the current time. -/
def isExpired (p : Poll) (now : Int) : Bool :=
  match p.expiresAt with
  | some t => decide (t < now)
  | none => false

/-- Does the vote row carry exactly this (pollId, userId, optionId) triple? -/
def isTripleVote (pollId userId optionId : String) (v : Vote) : Bool :=
  v.pollId == pollId && v.userId == userId && v.optionId == optionId

/-- All rows of the store for one (pollId, userId, optionId) triple. -/
def tripleVotes (s : Store) (pollId userId optionId : String) : List Vote :=
  s.votes.filter (isTripleVote pollId userId optionId)

/-- The action field of the castVote result. -/
inductive VoteAction
  | added
  | removed
deriving DecidableEq

/-- The result object of castVote: success flag, user-visible message, action. -/
structure VoteResult where
  success : Bool
  message : String
  action : VoteAction
deriving DecidableEq

/-- Errors raised by a prisma store call: P2002 is the unique-constraint
violation code; any other failure (connection loss etc.) is some other code. -/
inductive PrismaError
  | P2002
  | other (msg : String)
deriving DecidableEq

/-- prisma.vote.create under the uniqueness constraint on
(pollId, userId, optionId): rejects with P2002 when a row with the same
triple already exists (e.g. inserted by a concurrent call between the read
and the write).  The fault argument injects a non-constraint store failure;
none means the infrastructure is healthy. -/
def createVote (s : Store) (pollId userId optionId newId : String)
    (fault : Option String) : Except PrismaError Store :=
  if s.votes.any (isTripleVote pollId userId optionId) then
    .error .P2002
  else
    match fault with
    | some m => .error (.other m)
    | none => .ok { s with votes := s.votes ++ [⟨newId, pollId, userId, optionId⟩] }

/-- The vote-insert step of castVote (voteService.ts lines 66-89 with the
surrounding catch of lines 91-98): on success the added result; on a P2002
rejection the non-fatal already-voted result; any other error is re-thrown
and the outer catch turns it into the generic failure message. -/
def insertVoteStep (s : Store) (pollId userId optionId newId optionText : String)
    (fault : Option String) : VoteResult × Store :=
  match createVote s pollId userId optionId newId fault with
  | .ok s2 => (⟨true, "Voted for \"" ++ optionText ++ "\"", .added⟩, s2)
  | .error .P2002 => (⟨false, "You have already voted for this option", .added⟩, s)
  | .error (.other _) =>
      (⟨false, "An error occurred while processing your vote", .added⟩, s)

/-- The toggle-off lookup of castVote (voteService.ts line 42): the vote of
this user on this poll for exactly this option, when one exists. -/
def userVoteFor (s : Store) (pollId userId optionId : String) : Option Vote :=
  (userPollVotes s pollId userId).find? (fun v => v.optionId == optionId)

/-- VoteService.castVote (voteService.ts lines 8-99).  Arguments beyond the
source signature make the implicit context explicit: now is the clock read
by new Date, newId the row id prisma would mint for the inserted vote, and
fault the injected infrastructure failure of the insert call (none when the
store is healthy). -/
def castVote (s : Store) (pollId userId optionId : String) (now : Int)
    (newId : String) (fault : Option String) : VoteResult × Store :=
  match findPoll s pollId with
  | none => (⟨false, "Poll not found", .added⟩, s)
  | some poll =>
    if poll.status = .CLOSED then
      (⟨false, "Poll is closed", .added⟩, s)
    else if isExpired poll now then
      (⟨false, "Poll has expired", .added⟩, s)
    else
      match poll.options.find? (fun o => o.id == optionId) with
      | none => (⟨false, "Invalid option", .added⟩, s)
      | some selectedOption =>
        let votes := userPollVotes s pollId userId
        match votes.find? (fun v => v.optionId == optionId) with
        | some existingVote =>
            (⟨true, "Removed vote for \"" ++ selectedOption.text ++ "\"", .removed⟩,
             { s with votes := s.votes.filter (fun v => !(v.id == existingVote.id)) })
        | none =>
          let s1 : Store :=
            if poll.allowMultiple = false ∧ 0 < votes.length then
              { s with votes :=
                  s.votes.filter (fun v => !(v.pollId == pollId && v.userId == userId)) }
            else s
          insertVoteStep s1 pollId userId optionId newId selectedOption.text fault

/-! ## Closure scheduler (src/jobs/pollCloser.ts) -/

/-- The delayed-job queue: each entry is the job id together with the delay
handed to the delayed-execution facility at enqueue time. -/
structure JobQueue where
  jobs : List (String × Int)
deriving DecidableEq

/-- addPollCloseJob (pollCloser.ts lines 24-33): enqueues the close-poll job
with jobId poll-pollId and delay closeAt.getTime() - Date.now(), exactly as
computed by the source, with no further adjustment. -/
def addPollCloseJob (q : JobQueue) (pollId : String) (closeAt now : Int) : JobQueue :=
  { jobs := q.jobs ++ [("poll-" ++ pollId, closeAt - now)] }

/-- removePollCloseJob (pollCloser.ts lines 35-40): fetches the job keyed
poll-pollId and removes it when present; absence is not an error. -/
def removePollCloseJob (q : JobQueue) (pollId : String) : JobQueue :=
  { jobs := q.jobs.filter (fun j => !(j.1 == "poll-" ++ pollId)) }

/-! ## Poll lifecycle (src/commands/poll.ts closePoll, worker callback) -/

/-- The combined state the lifecycle command acts on: the store plus the
delayed-job queue. -/
structure World where
  store : Store
  queue : JobQueue
deriving DecidableEq

/-- The caller-visible outcome of the close subcommand. -/
inductive CloseOutcome
  | notFound
  | forbidden
  | alreadyClosed
  | closed (title : String)
deriving DecidableEq

/-- prisma.poll.update where id, data status: sets the status of the poll
row with the given id. -/
def setPollStatus (s : Store) (pollId : String) (st : PollStatus) : Store :=
  { s with polls :=
      s.polls.map (fun p => if p.id == pollId then { p with status := st } else p) }

/-- closePoll (poll.ts lines 225-281): not found, then the creator check,
then the already-closed check, otherwise the status update to CLOSED.  The
source performs no queue operation in any branch: the pending closure job
for the poll is left untouched. -/
def closePoll (w : World) (pollId requesterId : String) : CloseOutcome × World :=
  match findPoll w.store pollId with
  | none => (.notFound, w)
  | some poll =>
    if poll.creatorId == requesterId then
      if poll.status = .CLOSED then (.alreadyClosed, w)
      else (.closed poll.title, { w with store := setPollStatus w.store pollId .CLOSED })
    else (.forbidden, w)

/-- The store-state part of the worker callback of createPollCloseWorker
(pollCloser.ts lines 45-83): load the poll; missing poll is a no-op;
already-CLOSED poll is a no-op; otherwise set the status to CLOSED.  The
subsequent Discord message edit and channel notification are best-effort
external side effects with no bearing on store state and are not modelled.
The callback carries no requester identity: no authorization check exists
on this path. -/
def processPollCloseJob (s : Store) (pollId : String) : Store :=
  match findPoll s pollId with
  | none => s
  | some poll =>
    if poll.status = .CLOSED then s
    else setPollStatus s pollId .CLOSED

/-! ## Poll results (src/services/voteService.ts getPollResults) -/

/-- A JavaScript runtime error. -/
inductive JsError
  | referenceError (name : String)
deriving DecidableEq

/-- A temporal-dead-zone read: in getPollResults the initializer of
const poll evaluates poll?.isAnonymous as part of the query argument
(voteService.ts line 111), reading the const binding poll before its
initialization completes, which raises
ReferenceError: Cannot access poll before initialization. -/
def pollTdzRead : Except JsError Bool :=
  .error (.referenceError "poll")

/-- Evaluation of the include clause of the query argument of
getPollResults: computing the votes condition forces the dead-zone read of
poll, so no value is ever produced. -/
def resultsQueryVotesInclude : Except JsError Bool := do
  let anon ← pollTdzRead
  pure (!anon)

/-- One entry of the results array built by getPollResults. -/
structure VoteResultRow where
  optionId : String
  text : String
  count : Nat
  percentage : Nat
  voters : Option (List String)
deriving DecidableEq

/-- The PollResults object returned by getPollResults. -/
structure PollResults where
  pollId : String
  title : String
  totalVotes : Nat
  results : List VoteResultRow
  isAnonymous : Bool
  status : PollStatus
deriving DecidableEq

/-- Math.round((count / total) * 100) for natural count ≤ total: rounding
to the nearest integer with halves rounded up. -/
def jsRoundPct (count total : Nat) : Nat :=
  (200 * count + total) / (2 * total)

/-- The vote rows attached to one option (the votes relation of the
option). -/
def votesForOption (s : Store) (optionId : String) : List Vote :=
  s.votes.filter (fun v => v.optionId == optionId)

/-- All vote rows of one poll (the _count.votes aggregate). -/
def pollVoteCount (s : Store) (pollId : String) : Nat :=
  (s.votes.filter (fun v => v.pollId == pollId)).length

/-- Insertion into a list of options sorted by ascending position. -/
def insertByPosition (o : PollOption) : List PollOption → List PollOption
  | [] => [o]
  | x :: xs =>
    if o.position ≤ x.position then o :: x :: xs else x :: insertByPosition o xs

/-- The orderBy position asc clause of the options include. -/
def orderByPosition : List PollOption → List PollOption
  | [] => []
  | x :: xs => insertByPosition x (orderByPosition xs)

/-- The tally computation of getPollResults (voteService.ts lines 123-147):
one row per option in position order with raw count, rounded integer
percentage (0 when the total is 0), and the voter list only when the poll
is not anonymous.  In the source this code is unreachable: the query
argument raises before the lookup runs (see resultsQueryVotesInclude). -/
def computePollResults (s : Store) (poll : Poll) : PollResults :=
  let totalVotes := pollVoteCount s poll.id
  let rows := (orderByPosition poll.options).map (fun o =>
    let ovotes := votesForOption s o.id
    let count := ovotes.length
    let percentage := if 0 < totalVotes then jsRoundPct count totalVotes else 0
    { optionId := o.id, text := o.text, count := count, percentage := percentage,
      voters := if poll.isAnonymous then none
                else some (ovotes.map (fun v => v.userId)) : VoteResultRow })
  { pollId := poll.id, title := poll.title, totalVotes := totalVotes,
    results := rows, isAnonymous := poll.isAnonymous, status := poll.status }

/-- The body of getPollResults inside its try block: evaluate the query
argument (which raises), then the lookup, the null check and the tally. -/
def getPollResultsBody (s : Store) (pollId : String) :
    Except JsError (Option PollResults) := do
  let _include ← resultsQueryVotesInclude
  match findPoll s pollId with
  | none => pure none
  | some poll => pure (some (computePollResults s poll))

/-- VoteService.getPollResults (voteService.ts lines 104-152): the try body
above with the catch that logs any raised error and returns null. -/
def getPollResults (s : Store) (pollId : String) : Option PollResults :=
  match getPollResultsBody s pollId with
  | .ok r => r
  | .error _ => none

/-! ## Status-transition relation (for the lifecycle invariant) -/

/-- One poll status either stays put or moves from OPEN to CLOSED. -/
def statusStep (a b : PollStatus) : Prop :=
  a = b ∨ (a = .OPEN ∧ b = .CLOSED)

/-- Row-by-row comparison of the poll tables of two stores: same rows in
the same order, each keeping its id and making only a forward status
transition. -/
def statusMonotone (s s2 : Store) : Prop :=
  List.Forall₂ (fun p q => p.id = q.id ∧ statusStep p.status q.status) s.polls s2.polls

/-! ## Concrete fixtures used to instantiate the theorems -/

/-- First option of the example poll. -/
def optRed : PollOption := ⟨"o1", "Red", "1", 0⟩

/-- Second option of the example poll. -/
def optBlue : PollOption := ⟨"o2", "Blue", "2", 1⟩

/-- An open single-select poll with two options and no expiry. -/
def pollColors : Poll :=
  ⟨"p1", "Colors", "u1", false, false, .OPEN, none, [optRed, optBlue]⟩

/-- A poll already CLOSED. -/
def pollClosedFix : Poll :=
  ⟨"p2", "Done", "u1", false, false, .CLOSED, none, [optRed, optBlue]⟩

/-- An open poll whose expiry instant is 10. -/
def pollExpiredFix : Poll :=
  ⟨"p3", "Late", "u1", false, false, .OPEN, some 10, [optRed, optBlue]⟩

/-- A world holding the open poll and its pending closure job. -/
def worldC3 : World := ⟨⟨[pollColors], []⟩, ⟨[("poll-p1", 100)]⟩⟩

/-- A store holding the open poll and three votes on it. -/
def storeC9 : Store :=
  ⟨[pollColors],
   [⟨"v1", "p1", "u1", "o1"⟩, ⟨"v2", "p1", "u2", "o1"⟩, ⟨"v3", "p1", "u3", "o2"⟩]⟩

/-- A store already holding the (p1, u1, o1) triple. -/
def storeC5 : Store := ⟨[pollColors], [⟨"v1", "p1", "u1", "o1"⟩]⟩

/-! ## List helper lemmas -/

lemma find?_filter_and {α : Type _} (l : List α) (p q : α → Bool) :
    (l.filter p).find? q = l.find? (fun a => p a && q a) := by
  rw [List.find?_filter]
  congr 1
  funext a
  cases hp : p a <;> cases hq : q a <;> simp [hp, hq]

lemma userVoteFor_eq_find_triple (s : Store) (pid uid oid : String) :
    userVoteFor s pid uid oid = s.votes.find? (isTripleVote pid uid oid) := by
  unfold userVoteFor userPollVotes
  rw [find?_filter_and]
  rfl

/-- A triple vote of the store is among the votes of its user on its poll. -/
lemma tripleVotes_sub_userPollVotes (s : Store) (pid uid oid : String) {v : Vote}
    (hv : v ∈ s.votes) (ht : isTripleVote pid uid oid v = true) :
    v ∈ userPollVotes s pid uid := by
  have h1 : (v.pollId == pid) = true := by
    unfold isTripleVote at ht
    exact (Bool.and_eq_true_iff.mp (Bool.and_eq_true_iff.mp ht).1).1
  have h2 : (v.userId == uid) = true := by
    unfold isTripleVote at ht
    exact (Bool.and_eq_true_iff.mp (Bool.and_eq_true_iff.mp ht).1).2
  exact List.mem_filter.mpr ⟨hv, by simp [h1, h2]⟩

/-- With no vote of the user for this option, the store holds no row for the
triple at all, so the unique-constraint check of the insert passes. -/
lemma no_triple_of_userVoteFor_none (s : Store) (pid uid oid : String)
    (h : userVoteFor s pid uid oid = none) :
    s.votes.any (isTripleVote pid uid oid) = false := by
  rw [userVoteFor_eq_find_triple] at h
  rw [Bool.eq_false_iff]
  intro hany
  obtain ⟨v, hv, ht⟩ := List.any_eq_true.mp hany
  have := List.find?_eq_none.mp h v hv
  exact this ht

lemma no_triple_of_userPollVotes_nil (s : Store) (pid uid oid : String)
    (h : userPollVotes s pid uid = []) :
    s.votes.any (isTripleVote pid uid oid) = false := by
  rw [Bool.eq_false_iff]
  intro hany
  obtain ⟨v, hv, ht⟩ := List.any_eq_true.mp hany
  have hmem := tripleVotes_sub_userPollVotes s pid uid oid hv ht
  rw [h] at hmem
  exact absurd hmem (List.not_mem_nil v)

/-- The replace-path deleteMany removes every row of the user on the poll,
in particular every row for the triple, so the subsequent insert passes the
unique-constraint check. -/
lemma no_triple_in_pruned (s : Store) (pid uid oid : String) :
    (s.votes.filter (fun v => !(v.pollId == pid && v.userId == uid))).any
      (isTripleVote pid uid oid) = false := by
  rw [List.any_filter, Bool.eq_false_iff]
  intro hany
  obtain ⟨v, _, ht⟩ := List.any_eq_true.mp hany
  revert ht
  cases h1 : v.pollId == pid <;> cases h2 : v.userId == uid <;>
    cases h3 : v.optionId == oid <;> simp [isTripleVote, h1, h2, h3]

/-! ## castVote path lemmas -/

/-- Toggle-off path: the user already holds a vote for exactly this option,
so castVote deletes that row and reports REMOVED, regardless of
allowMultiple and of any other votes the user holds. -/
lemma castVote_remove_eq (s : Store) (pid uid oid : String) (now : Int)
    (nid : String) (fault : Option String) (poll : Poll) (opt : PollOption) (v : Vote)
    (hp : findPoll s pid = some poll)
    (hst : poll.status = .OPEN)
    (hex : isExpired poll now = false)
    (ho : poll.options.find? (fun o => o.id == oid) = some opt)
    (hv : userVoteFor s pid uid oid = some v) :
    castVote s pid uid oid now nid fault =
      (⟨true, "Removed vote for \"" ++ opt.text ++ "\"", .removed⟩,
       { s with votes := s.votes.filter (fun w => !(w.id == v.id)) }) := by
  have hv2 : (userPollVotes s pid uid).find? (fun w => w.optionId == oid) = some v := hv
  simp [castVote, hp, hst, hex, ho, hv2]

/-- Add path with no replace step, multi-select case. -/
lemma castVote_add_multi (s : Store) (pid uid oid : String) (now : Int)
    (nid : String) (poll : Poll) (opt : PollOption)
    (hp : findPoll s pid = some poll)
    (hst : poll.status = .OPEN)
    (hex : isExpired poll now = false)
    (ho : poll.options.find? (fun o => o.id == oid) = some opt)
    (hm : poll.allowMultiple = true)
    (hv : userVoteFor s pid uid oid = none) :
    castVote s pid uid oid now nid none =
      (⟨true, "Voted for \"" ++ opt.text ++ "\"", .added⟩,
       { s with votes := s.votes ++ [⟨nid, pid, uid, oid⟩] }) := by
  have hv2 : (userPollVotes s pid uid).find? (fun w => w.optionId == oid) = none := hv
  have hnt := no_triple_of_userVoteFor_none s pid uid oid hv
  simp [castVote, hp, hst, hex, ho, hv2, hm, insertVoteStep, createVote, hnt]

/-- Add path with no replace step, user-holds-no-votes case. -/
lemma castVote_add_empty (s : Store) (pid uid oid : String) (now : Int)
    (nid : String) (poll : Poll) (opt : PollOption)
    (hp : findPoll s pid = some poll)
    (hst : poll.status = .OPEN)
    (hex : isExpired poll now = false)
    (ho : poll.options.find? (fun o => o.id == oid) = some opt)
    (he : userPollVotes s pid uid = []) :
    castVote s pid uid oid now nid none =
      (⟨true, "Voted for \"" ++ opt.text ++ "\"", .added⟩,
       { s with votes := s.votes ++ [⟨nid, pid, uid, oid⟩] }) := by
  have hnt := no_triple_of_userPollVotes_nil s pid uid oid he
  simp [castVote, hp, hst, hex, ho, he, insertVoteStep, createVote, hnt]

/-- Add path through the replace step: single-select with existing votes for
other options deletes every row of the user on the poll, then inserts. -/
lemma castVote_add_prune (s : Store) (pid uid oid : String) (now : Int)
    (nid : String) (poll : Poll) (opt : PollOption)
    (hp : findPoll s pid = some poll)
    (hst : poll.status = .OPEN)
    (hex : isExpired poll now = false)
    (ho : poll.options.find? (fun o => o.id == oid) = some opt)
    (hm : poll.allowMultiple = false)
    (hne : userPollVotes s pid uid ≠ [])
    (hv : userVoteFor s pid uid oid = none) :
    castVote s pid uid oid now nid none =
      (⟨true, "Voted for \"" ++ opt.text ++ "\"", .added⟩,
       { s with votes :=
           s.votes.filter (fun v => !(v.pollId == pid && v.userId == uid))
             ++ [⟨nid, pid, uid, oid⟩] }) := by
  have hv2 : (userPollVotes s pid uid).find? (fun w => w.optionId == oid) = none := hv
  have hlen : 0 < (userPollVotes s pid uid).length := List.length_pos.mpr hne
  have hnt2 : ¬ ∃ x ∈ s.votes,
      (¬x.pollId = pid ∨ ¬x.userId = uid) ∧ isTripleVote pid uid oid x = true := by
    rintro ⟨x, _, hpu, ht⟩
    unfold isTripleVote at ht
    rcases hpu with h | h
    · exact h (by simpa using (Bool.and_eq_true_iff.mp (Bool.and_eq_true_iff.mp ht).1).1)
    · exact h (by simpa using (Bool.and_eq_true_iff.mp (Bool.and_eq_true_iff.mp ht).1).2)
  simp [castVote, hp, hst, hex, ho, hv2, hm, hlen, insertVoteStep, createVote, hnt2]

lemma find?_eq_none_of_filter_nil {α : Type _} (l : List α) (p : α → Bool)
    (h : l.filter p = []) : l.find? p = none :=
  List.find?_eq_none.mpr (List.filter_eq_nil_iff.mp h)

lemma filter_and_nil {α : Type _} (l : List α) (p q : α → Bool)
    (h : l.filter p = []) : l.filter (fun a => p a && q a) = [] := by
  apply List.filter_eq_nil_iff.mpr
  intro a ha
  have hp := List.filter_eq_nil_iff.mp h a ha
  have hfa : p a = false := by
    cases hq : p a
    · rfl
    · exact absurd hq hp
  simp [hfa]

lemma filter_swap {α : Type _} (l : List α) (p q : α → Bool) :
    (l.filter q).filter p = (l.filter p).filter q := by
  rw [List.filter_filter, List.filter_filter]
  apply List.filter_congr
  intro a _
  rw [Bool.and_comm]

/-- Deleting every row of the user on the poll leaves no row of the user on
the poll. -/
lemma pruned_PU_nil (l : List Vote) (pid uid : String) :
    (l.filter (fun v => !(v.pollId == pid && v.userId == uid))).filter
      (fun v => v.pollId == pid && v.userId == uid) = [] := by
  rw [List.filter_filter]
  apply List.filter_eq_nil_iff.mpr
  intro a _
  cases h : (a.pollId == pid && a.userId == uid) <;> simp [h]

/-- A vote row freshly built for the triple satisfies the triple test. -/
lemma isTripleVote_new (pid uid oid nid : String) :
    isTripleVote pid uid oid ⟨nid, pid, uid, oid⟩ = true := by
  simp [isTripleVote]

/-- Second cast of the same option: starting from votes base ++ [new vote
for the triple] with no other triple row, castVote takes the toggle-off
path and afterwards no triple row remains. -/
lemma cast_toggle_new (P : List Poll) (base : List Vote) (pid uid oid : String)
    (now2 : Int) (nid1 nid2 : String) (poll : Poll) (opt : PollOption)
    (hp : findPoll ⟨P, base ++ [⟨nid1, pid, uid, oid⟩]⟩ pid = some poll)
    (hst : poll.status = .OPEN)
    (hex2 : isExpired poll now2 = false)
    (ho : poll.options.find? (fun o => o.id == oid) = some opt)
    (hbase : base.filter (isTripleVote pid uid oid) = []) :
    tripleVotes (castVote ⟨P, base ++ [⟨nid1, pid, uid, oid⟩]⟩
      pid uid oid now2 nid2 none).2 pid uid oid = [] := by
  have htr := isTripleVote_new pid uid oid nid1
  have hfind : userVoteFor ⟨P, base ++ [(⟨nid1, pid, uid, oid⟩ : Vote)]⟩ pid uid oid
      = some (⟨nid1, pid, uid, oid⟩ : Vote) := by
    rw [userVoteFor_eq_find_triple]
    show (base ++ [(⟨nid1, pid, uid, oid⟩ : Vote)]).find? (isTripleVote pid uid oid)
        = some (⟨nid1, pid, uid, oid⟩ : Vote)
    rw [List.find?_append, find?_eq_none_of_filter_nil _ _ hbase]
    simp [htr]
  rw [castVote_remove_eq ⟨P, base ++ [(⟨nid1, pid, uid, oid⟩ : Vote)]⟩
    pid uid oid now2 nid2 none poll opt _ hp hst hex2 ho hfind]
  show ((base ++ [(⟨nid1, pid, uid, oid⟩ : Vote)]).filter
      (fun w => !(w.id == nid1))).filter (isTripleVote pid uid oid) = []
  rw [List.filter_filter, List.filter_append]
  have h1 : base.filter
      (fun a => isTripleVote pid uid oid a && !(a.id == nid1)) = [] :=
    filter_and_nil base _ _ hbase
  rw [h1]
  simp [htr]

/-- Terminal cast of the single-select replace scenario: from a state where
the user holds no vote at all, or one vote for a different option, casting
option o2 under allowMultiple false leaves exactly the one new row. -/
lemma cast_single_select_end (t : Store) (pid uid o2 : String) (now2 : Int)
    (nid2 : String) (poll : Poll) (opt2 : PollOption)
    (hp : findPoll t pid = some poll)
    (hst : poll.status = .OPEN)
    (hex2 : isExpired poll now2 = false)
    (ho2 : poll.options.find? (fun o => o.id == o2) = some opt2)
    (hm : poll.allowMultiple = false)
    (hcase : userPollVotes t pid uid = [] ∨
      ∃ n1, userPollVotes t pid uid = [n1] ∧ (n1.optionId == o2) = false) :
    userPollVotes (castVote t pid uid o2 now2 nid2 none).2 pid uid
      = [⟨nid2, pid, uid, o2⟩] := by
  rcases hcase with he | ⟨n1, hone, hno⟩
  · rw [castVote_add_empty t pid uid o2 now2 nid2 poll opt2 hp hst hex2 ho2 he]
    show (t.votes ++ [(⟨nid2, pid, uid, o2⟩ : Vote)]).filter
        (fun v => v.pollId == pid && v.userId == uid)
        = [(⟨nid2, pid, uid, o2⟩ : Vote)]
    rw [List.filter_append]
    have h1 : t.votes.filter
        (fun v => v.pollId == pid && v.userId == uid) = [] := he
    rw [h1]
    simp [List.filter]
  · have hv : userVoteFor t pid uid o2 = none := by
      unfold userVoteFor
      rw [hone]
      simp [List.find?, hno]
    have hne2 : userPollVotes t pid uid ≠ [] := by
      rw [hone]
      simp
    rw [castVote_add_prune t pid uid o2 now2 nid2 poll opt2 hp hst hex2 ho2 hm hne2 hv]
    show ((t.votes.filter (fun v => !(v.pollId == pid && v.userId == uid)))
        ++ [(⟨nid2, pid, uid, o2⟩ : Vote)]).filter
        (fun v => v.pollId == pid && v.userId == uid)
        = [(⟨nid2, pid, uid, o2⟩ : Vote)]
    rw [List.filter_append, pruned_PU_nil]
    simp [List.filter]

/-- Updating the status of the poll a lookup finds makes the subsequent
lookup find the same row with the new status. -/
lemma findPoll_setPollStatus_self (s : Store) (pid : String) (st : PollStatus)
    (poll : Poll) (hp : findPoll s pid = some poll) :
    findPoll (setPollStatus s pid st) pid = some { poll with status := st } := by
  have hid : (poll.id == pid) = true := by
    have h2 : s.polls.find? (fun p => p.id == pid) = some poll := hp
    have h3 := List.find?_some h2
    exact h3
  unfold findPoll setPollStatus
  rw [List.find?_map]
  have hcomp : ((fun p : Poll => p.id == pid) ∘
      (fun p : Poll => if p.id == pid then { p with status := st } else p))
      = fun p : Poll => p.id == pid := by
    funext p
    by_cases h : (p.id == pid) = true
    · have h4 : p.id = pid := by simpa using h
      simp [h4]
    · have h4 : ¬p.id = pid := by simpa using h
      simp [h4]
  rw [hcomp]
  rw [show s.polls.find? (fun p => p.id == pid) = some poll from hp]
  have hpe : poll.id = pid := by simpa using hid
  simp [hpe]

/-! ## Claims -/

/-- Claim C10: for every store state and every pollId, getPollResults
returns null: the query argument reads the const binding poll inside its own
initializer, so evaluating the call raises before any lookup completes, and
the surrounding catch converts the error to null. -/
theorem claimC10 (s : Store) (pid : String) : getPollResults s pid = none := rfl

/-- Claim C9: the spec requires ComputeResults to return a per-option tally
for an existing poll, but getPollResults returns none even on a store where
the poll exists and has votes: the temporal-dead-zone read in the query
argument raises before the lookup, so the catch yields null.  The poll of
this store exists and carries three votes, yet the result is none. -/
theorem claimC9_bug :
    findPoll storeC9 "p1" = some pollColors ∧
    pollVoteCount storeC9 "p1" = 3 ∧
    getPollResults storeC9 "p1" = none :=
  ⟨rfl, rfl, rfl⟩

/-- Claim C7 counterexample: scheduling a closure whose fireAt instant (0)
is already past at now = 1000 hands the delayed-execution facility the
delay -1000, which is negative: the claimed clamping to zero or more does
not exist in addPollCloseJob. -/
theorem claimC7_cex :
    (addPollCloseJob ⟨[]⟩ "p1" 0 1000).jobs = [("poll-p1", -1000)] ∧
    (-1000 : Int) < 0 :=
  ⟨rfl, by decide⟩

/-- Claim C7 amended: Schedule(pollId, fireAt) registers the closure job
keyed poll-pollId with delay exactly fireAt - now, with no clamping; the
delay is nonnegative only when fireAt has not yet passed. -/
theorem claimC7_amended (q : JobQueue) (pid : String) (closeAt now : Int) :
    (addPollCloseJob q pid closeAt now).jobs
      = q.jobs ++ [("poll-" ++ pid, closeAt - now)] ∧
    (now ≤ closeAt → 0 ≤ closeAt - now) :=
  ⟨rfl, fun h => by omega⟩

/-- Claim C7 amended-theorem witness at a concrete input. -/
theorem claimC7_witness :
    (addPollCloseJob ⟨[]⟩ "p2" 500 100).jobs = [("poll-p2", 400)] ∧
    (0 : Int) ≤ 400 := by
  have h := claimC7_amended ⟨[]⟩ "p2" 500 100
  exact ⟨by simpa using h.1, h.2 (by decide)⟩

/-- Claim C4: castVote on a CLOSED poll fails with the poll-is-closed
outcome and leaves the store unchanged; castVote on a still-OPEN poll whose
expiry instant is strictly past fails with the poll-has-expired outcome and
leaves the store unchanged, independent of any closure job. -/
theorem claimC4 (s : Store) (pid uid oid : String) (now : Int) (nid : String)
    (fault : Option String) (poll : Poll)
    (hp : findPoll s pid = some poll) :
    (poll.status = .CLOSED →
      castVote s pid uid oid now nid fault
        = (⟨false, "Poll is closed", .added⟩, s)) ∧
    (poll.status = .OPEN → isExpired poll now = true →
      castVote s pid uid oid now nid fault
        = (⟨false, "Poll has expired", .added⟩, s)) := by
  constructor
  · intro hc
    simp [castVote, hp, hc]
  · intro hop hex
    simp [castVote, hp, hop, hex]

/-- Claim C4 witness: the closed poll and the expired poll at concrete
stores. -/
theorem claimC4_witness :
    castVote ⟨[pollClosedFix], []⟩ "p2" "u1" "o1" 0 "w1" none
      = (⟨false, "Poll is closed", .added⟩, ⟨[pollClosedFix], []⟩) ∧
    castVote ⟨[pollExpiredFix], []⟩ "p3" "u1" "o1" 99 "w1" none
      = (⟨false, "Poll has expired", .added⟩, ⟨[pollExpiredFix], []⟩) :=
  ⟨(claimC4 ⟨[pollClosedFix], []⟩ "p2" "u1" "o1" 0 "w1" none pollClosedFix rfl).1 rfl,
   (claimC4 ⟨[pollExpiredFix], []⟩ "p3" "u1" "o1" 99 "w1" none pollExpiredFix rfl).2
     rfl rfl⟩

/-- Claim C5: when the store rejects the vote insert, the rejection is
reported as the non-fatal already-voted outcome exactly when the error is
the P2002 uniqueness violation; the P2002 error arises exactly when a row
for the (pollId, userId, optionId) triple already exists; and the outcome
is returned as an unsuccessful result, never as a crash. -/
theorem claimC5 (s : Store) (pid uid oid nid txt : String) (fault : Option String)
    (e : PrismaError)
    (hrej : createVote s pid uid oid nid fault = .error e) :
    ((insertVoteStep s pid uid oid nid txt fault).1
        = ⟨false, "You have already voted for this option", .added⟩ ↔ e = .P2002) ∧
    (e = .P2002 ↔ s.votes.any (isTripleVote pid uid oid) = true) ∧
    (insertVoteStep s pid uid oid nid txt fault).1.success = false := by
  unfold insertVoteStep
  rw [hrej]
  unfold createVote at hrej
  by_cases hany : s.votes.any (isTripleVote pid uid oid) = true
  · rw [if_pos hany] at hrej
    injection hrej with h
    subst h
    exact ⟨⟨fun _ => rfl, fun _ => rfl⟩, ⟨fun _ => hany, fun _ => rfl⟩, rfl⟩
  · rw [if_neg hany] at hrej
    cases hf : fault with
    | none =>
      rw [hf] at hrej
      exact absurd hrej (by simp)
    | some m =>
      rw [hf] at hrej
      injection hrej with h
      subst h
      refine ⟨⟨fun hmsg => ?_, fun hpe => ?_⟩, ⟨fun hpe => ?_, fun ht => ?_⟩, rfl⟩
      · exact absurd (congrArg VoteResult.message hmsg) (by simp)
      · exact absurd hpe (by simp)
      · exact absurd hpe (by simp)
      · exact absurd ht hany

/-- Claim C5 witness: a store already holding the triple rejects the insert
with P2002 and the step reports the already-voted outcome. -/
theorem claimC5_witness :
    (insertVoteStep storeC5 "p1" "u1" "o1" "v9" "Red" none).1
      = ⟨false, "You have already voted for this option", .added⟩ :=
  (claimC5 storeC5 "p1" "u1" "o1" "v9" "Red" none .P2002 rfl).1.mpr rfl

/-- Claim C1: for an open, unexpired poll and a valid option, if the user
already holds a vote for exactly that option then castVote deletes it and
reports REMOVED, regardless of allowMultiple or any other votes (the toggle
takes precedence over the replace logic); hence two successive casts of the
same option from a state with no row for the triple leave zero rows for the
triple. -/
theorem claimC1 (s : Store) (pid uid oid : String) (now1 now2 : Int)
    (nid1 nid2 : String) (poll : Poll) (opt : PollOption)
    (hp : findPoll s pid = some poll)
    (hst : poll.status = .OPEN)
    (hex1 : isExpired poll now1 = false)
    (hex2 : isExpired poll now2 = false)
    (ho : poll.options.find? (fun o => o.id == oid) = some opt) :
    (∀ (v : Vote) (fault : Option String), userVoteFor s pid uid oid = some v →
      (castVote s pid uid oid now1 nid1 fault).1.action = .removed ∧
      (castVote s pid uid oid now1 nid1 fault).2.votes
        = s.votes.filter (fun w => !(w.id == v.id))) ∧
    (tripleVotes s pid uid oid = [] →
      tripleVotes (castVote (castVote s pid uid oid now1 nid1 none).2
        pid uid oid now2 nid2 none).2 pid uid oid = []) := by
  constructor
  · intro v fault hv
    rw [castVote_remove_eq s pid uid oid now1 nid1 fault poll opt v hp hst hex1 ho hv]
    exact ⟨rfl, rfl⟩
  · intro h0
    have hfn : userVoteFor s pid uid oid = none := by
      rw [userVoteFor_eq_find_triple]
      exact find?_eq_none_of_filter_nil _ _ h0
    by_cases hm : poll.allowMultiple = true
    · rw [castVote_add_multi s pid uid oid now1 nid1 poll opt hp hst hex1 ho hm hfn]
      exact cast_toggle_new s.polls s.votes pid uid oid now2 nid1 nid2 poll opt
        hp hst hex2 ho h0
    · have hm2 : poll.allowMultiple = false := by
        revert hm
        cases poll.allowMultiple <;> simp
      by_cases he : userPollVotes s pid uid = []
      · rw [castVote_add_empty s pid uid oid now1 nid1 poll opt hp hst hex1 ho he]
        exact cast_toggle_new s.polls s.votes pid uid oid now2 nid1 nid2 poll opt
          hp hst hex2 ho h0
      · rw [castVote_add_prune s pid uid oid now1 nid1 poll opt hp hst hex1 ho hm2 he hfn]
        refine cast_toggle_new s.polls
          (s.votes.filter (fun v => !(v.pollId == pid && v.userId == uid)))
          pid uid oid now2 nid1 nid2 poll opt hp hst hex2 ho ?_
        rw [filter_swap]
        have h1 : s.votes.filter (isTripleVote pid uid oid) = [] := h0
        rw [h1]
        rfl

/-- Claim C1 witness: toggling the same option twice on the concrete empty
store leaves zero rows for the triple. -/
theorem claimC1_witness :
    tripleVotes (castVote (castVote ⟨[pollColors], []⟩ "p1" "u1" "o1" 5 "w1" none).2
      "p1" "u1" "o1" 6 "w2" none).2 "p1" "u1" "o1" = [] :=
  (claimC1 ⟨[pollColors], []⟩ "p1" "u1" "o1" 5 6 "w1" "w2" pollColors optRed
    rfl rfl rfl rfl rfl).2 rfl

/-- Claim C2: under single-select, after casting o1 and then a distinct o2
on an open, unexpired poll, the user holds exactly the one new row for o2.
The starting state satisfies the single-select invariant of the spec: the
user holds at most one vote on the poll. -/
theorem claimC2 (s : Store) (pid uid o1 o2 : String) (now1 now2 : Int)
    (nid1 nid2 : String) (poll : Poll) (opt1 opt2 : PollOption)
    (hp : findPoll s pid = some poll)
    (hst : poll.status = .OPEN)
    (hex1 : isExpired poll now1 = false)
    (hex2 : isExpired poll now2 = false)
    (ho1 : poll.options.find? (fun o => o.id == o1) = some opt1)
    (ho2 : poll.options.find? (fun o => o.id == o2) = some opt2)
    (hm : poll.allowMultiple = false)
    (hdiff : o1 ≠ o2)
    (hinv : (userPollVotes s pid uid).length ≤ 1) :
    userPollVotes (castVote (castVote s pid uid o1 now1 nid1 none).2
      pid uid o2 now2 nid2 none).2 pid uid = [⟨nid2, pid, uid, o2⟩] := by
  have hno : ((⟨nid1, pid, uid, o1⟩ : Vote).optionId == o2) = false := by
    show (o1 == o2) = false
    exact beq_eq_false_iff_ne.mpr hdiff
  cases hL : userPollVotes s pid uid with
  | nil =>
    rw [castVote_add_empty s pid uid o1 now1 nid1 poll opt1 hp hst hex1 ho1 hL]
    refine cast_single_select_end
      ⟨s.polls, s.votes ++ [(⟨nid1, pid, uid, o1⟩ : Vote)]⟩
      pid uid o2 now2 nid2 poll opt2 hp hst hex2 ho2 hm ?_
    right
    refine ⟨⟨nid1, pid, uid, o1⟩, ?_, hno⟩
    show (s.votes ++ [(⟨nid1, pid, uid, o1⟩ : Vote)]).filter
        (fun v => v.pollId == pid && v.userId == uid)
        = [(⟨nid1, pid, uid, o1⟩ : Vote)]
    rw [List.filter_append]
    have h1 : s.votes.filter (fun v => v.pollId == pid && v.userId == uid) = [] := hL
    rw [h1]
    simp [List.filter]
  | cons v rest =>
    have hrest : rest = [] := by
      have h1 := hinv
      rw [hL] at h1
      simp only [List.length_cons] at h1
      exact List.length_eq_zero.mp (Nat.le_zero.mp (Nat.lt_succ_iff.mp h1))
    subst hrest
    cases hvo : v.optionId == o1 with
    | true =>
      have hfv : userVoteFor s pid uid o1 = some v := by
        unfold userVoteFor
        rw [hL]
        simp [List.find?, hvo]
      rw [castVote_remove_eq s pid uid o1 now1 nid1 none poll opt1 v hp hst hex1 ho1 hfv]
      refine cast_single_select_end
        ⟨s.polls, s.votes.filter (fun w => !(w.id == v.id))⟩
        pid uid o2 now2 nid2 poll opt2 hp hst hex2 ho2 hm ?_
      left
      show (s.votes.filter (fun w => !(w.id == v.id))).filter
          (fun w => w.pollId == pid && w.userId == uid) = []
      rw [filter_swap]
      have h1 : s.votes.filter (fun w => w.pollId == pid && w.userId == uid) = [v] := hL
      rw [h1]
      simp [List.filter]
    | false =>
      have hfv : userVoteFor s pid uid o1 = none := by
        unfold userVoteFor
        rw [hL]
        simp [List.find?, hvo]
      have hne2 : userPollVotes s pid uid ≠ [] := by
        rw [hL]
        simp
      rw [castVote_add_prune s pid uid o1 now1 nid1 poll opt1 hp hst hex1 ho1 hm hne2 hfv]
      refine cast_single_select_end
        ⟨s.polls, s.votes.filter (fun w => !(w.pollId == pid && w.userId == uid))
          ++ [(⟨nid1, pid, uid, o1⟩ : Vote)]⟩
        pid uid o2 now2 nid2 poll opt2 hp hst hex2 ho2 hm ?_
      right
      refine ⟨⟨nid1, pid, uid, o1⟩, ?_, hno⟩
      show ((s.votes.filter (fun w => !(w.pollId == pid && w.userId == uid)))
          ++ [(⟨nid1, pid, uid, o1⟩ : Vote)]).filter
          (fun w => w.pollId == pid && w.userId == uid)
          = [(⟨nid1, pid, uid, o1⟩ : Vote)]
      rw [List.filter_append, pruned_PU_nil]
      simp [List.filter]

/-- Claim C2 witness: casting Red then Blue on the concrete empty store
leaves exactly the Blue row for the user. -/
theorem claimC2_witness :
    userPollVotes (castVote (castVote ⟨[pollColors], []⟩ "p1" "u1" "o1" 5 "w1" none).2
      "p1" "u1" "o2" 6 "w2" none).2 "p1" "u1" = [⟨"w2", "p1", "u1", "o2"⟩] :=
  claimC2 ⟨[pollColors], []⟩ "p1" "u1" "o1" "o2" 5 6 "w1" "w2" pollColors optRed optBlue
    rfl rfl rfl rfl rfl rfl rfl (by decide) (by decide)

/-- Claim C3 counterexample: the creator closes the open poll successfully,
yet the pending closure job for that poll is still queued afterwards —
closePoll cancels no job, contradicting the claim. -/
theorem claimC3_cex :
    (closePoll worldC3 "p1" "u1").1 = CloseOutcome.closed "Colors" ∧
    (closePoll worldC3 "p1" "u1").2.queue.jobs = [("poll-p1", 100)] :=
  ⟨rfl, rfl⟩

/-- Claim C3 amended: ClosePoll fails NotFound if the poll is absent, fails
Forbidden if the requester is not the creator, fails AlreadyClosed if the
poll is already CLOSED; otherwise it sets the status to CLOSED.  It does
not cancel the pending closure job: the queue is left unchanged in every
branch, and the redundant job later no-ops against the CLOSED poll. -/
theorem claimC3_amended (w : World) (pid rid : String) :
    (findPoll w.store pid = none → closePoll w pid rid = (.notFound, w)) ∧
    (∀ poll, findPoll w.store pid = some poll → poll.creatorId ≠ rid →
      closePoll w pid rid = (.forbidden, w)) ∧
    (∀ poll, findPoll w.store pid = some poll → poll.creatorId = rid →
      poll.status = .CLOSED → closePoll w pid rid = (.alreadyClosed, w)) ∧
    (∀ poll, findPoll w.store pid = some poll → poll.creatorId = rid →
      poll.status = .OPEN →
      (closePoll w pid rid).1 = .closed poll.title ∧
      (closePoll w pid rid).2.store = setPollStatus w.store pid .CLOSED ∧
      findPoll (closePoll w pid rid).2.store pid
        = some { poll with status := .CLOSED } ∧
      (closePoll w pid rid).2.queue = w.queue) := by
  refine ⟨?_, ?_, ?_, ?_⟩
  · intro h
    simp [closePoll, h]
  · intro poll hp hcr
    have hcr2 : (poll.creatorId == rid) = false := beq_eq_false_iff_ne.mpr hcr
    simp [closePoll, hp, hcr2]
  · intro poll hp hcr hcl
    have hcr2 : (poll.creatorId == rid) = true := by
      rw [hcr]
      exact beq_self_eq_true rid
    simp [closePoll, hp, hcr2, hcl]
  · intro poll hp hcr hop
    have hcr2 : (poll.creatorId == rid) = true := by
      rw [hcr]
      exact beq_self_eq_true rid
    have hmain : closePoll w pid rid
        = (.closed poll.title, { w with store := setPollStatus w.store pid .CLOSED }) := by
      simp [closePoll, hp, hcr2, hop]
    rw [hmain]
    exact ⟨rfl, rfl, findPoll_setPollStatus_self w.store pid .CLOSED poll hp, rfl⟩

/-- Claim C3 amended-theorem witness: the success branch on the concrete
world, with the queue unchanged. -/
theorem claimC3_witness :
    (closePoll worldC3 "p1" "u1").1 = CloseOutcome.closed "Colors" ∧
    (closePoll worldC3 "p1" "u1").2.queue = worldC3.queue := by
  have h := (claimC3_amended worldC3 "p1" "u1").2.2.2 pollColors rfl rfl rfl
  exact ⟨h.1, h.2.2.2⟩

/-- Claim C6: the scheduled-closure callback is idempotent at the state
level: missing poll is a no-op, already-CLOSED poll is a no-op, an OPEN
poll transitions to CLOSED (the callback carries no requester identity, so
no creator-authorization check exists on this path), and a second run after
success changes nothing. -/
theorem claimC6 (s : Store) (pid : String) :
    (findPoll s pid = none → processPollCloseJob s pid = s) ∧
    (∀ poll, findPoll s pid = some poll → poll.status = .CLOSED →
      processPollCloseJob s pid = s) ∧
    (∀ poll, findPoll s pid = some poll → poll.status = .OPEN →
      processPollCloseJob s pid = setPollStatus s pid .CLOSED ∧
      findPoll (processPollCloseJob s pid) pid
        = some { poll with status := .CLOSED }) ∧
    processPollCloseJob (processPollCloseJob s pid) pid
      = processPollCloseJob s pid := by
  refine ⟨?_, ?_, ?_, ?_⟩
  · intro h
    simp [processPollCloseJob, h]
  · intro poll hp hc
    simp [processPollCloseJob, hp, hc]
  · intro poll hp hop
    have h1 : processPollCloseJob s pid = setPollStatus s pid .CLOSED := by
      simp [processPollCloseJob, hp, hop]
    refine ⟨h1, ?_⟩
    rw [h1]
    exact findPoll_setPollStatus_self s pid .CLOSED poll hp
  · cases hp : findPoll s pid with
    | none =>
      simp [processPollCloseJob, hp]
    | some poll =>
      cases hop : poll.status with
      | OPEN =>
        have h1 : processPollCloseJob s pid = setPollStatus s pid .CLOSED := by
          simp [processPollCloseJob, hp, hop]
        have h2 := findPoll_setPollStatus_self s pid .CLOSED poll hp
        rw [h1]
        simp [processPollCloseJob, h2]
      | CLOSED =>
        have h1 : processPollCloseJob s pid = s := by
          simp [processPollCloseJob, hp, hop]
        rw [h1, h1]

/-- Claim C6 witness: the worker closes the concrete open poll and a second
run is a no-op. -/
theorem claimC6_witness :
    processPollCloseJob ⟨[pollColors], []⟩ "p1"
      = setPollStatus ⟨[pollColors], []⟩ "p1" .CLOSED ∧
    processPollCloseJob (processPollCloseJob ⟨[pollColors], []⟩ "p1") "p1"
      = processPollCloseJob ⟨[pollColors], []⟩ "p1" :=
  ⟨((claimC6 ⟨[pollColors], []⟩ "p1").2.2.1 pollColors rfl rfl).1,
   (claimC6 ⟨[pollColors], []⟩ "p1").2.2.2⟩

/-! ## Support for the lifecycle invariant (C8) -/

lemma statusStep_refl (a : PollStatus) : statusStep a a := Or.inl rfl

lemma statusStep_toClosed (a : PollStatus) : statusStep a .CLOSED := by
  cases a
  · exact Or.inr ⟨rfl, rfl⟩
  · exact Or.inl rfl

lemma statusMonotone_refl (s : Store) : statusMonotone s s :=
  List.forall₂_same.mpr (fun _ _ => ⟨rfl, statusStep_refl _⟩)

lemma statusMonotone_setClosed (s : Store) (pid : String) :
    statusMonotone s (setPollStatus s pid .CLOSED) := by
  unfold statusMonotone setPollStatus
  rw [List.forall₂_map_right_iff]
  apply List.forall₂_same.mpr
  intro p _
  by_cases h : (p.id == pid) = true
  · rw [if_pos h]
    exact ⟨rfl, statusStep_toClosed _⟩
  · rw [if_neg h]
    exact ⟨rfl, statusStep_refl _⟩

lemma closePoll_store_cases (w : World) (pid rid : String) :
    (closePoll w pid rid).2.store = w.store ∨
    (closePoll w pid rid).2.store = setPollStatus w.store pid .CLOSED := by
  unfold closePoll
  cases hp : findPoll w.store pid with
  | none => exact Or.inl rfl
  | some poll =>
    by_cases hcr : (poll.creatorId == rid) = true
    · by_cases hcl : poll.status = PollStatus.CLOSED
      · simp [hcr, hcl]
      · simp [hcr, hcl]
    · simp [hcr]

lemma processPollCloseJob_store_cases (s : Store) (pid : String) :
    processPollCloseJob s pid = s ∨
    processPollCloseJob s pid = setPollStatus s pid .CLOSED := by
  unfold processPollCloseJob
  cases hp : findPoll s pid with
  | none => exact Or.inl rfl
  | some poll =>
    by_cases hcl : poll.status = PollStatus.CLOSED
    · simp [hcl]
    · simp [hcl]

lemma insertVoteStep_polls (s : Store) (pid uid oid nid txt : String)
    (fault : Option String) :
    (insertVoteStep s pid uid oid nid txt fault).2.polls = s.polls := by
  unfold insertVoteStep createVote
  split_ifs with h
  · rfl
  · cases fault <;> rfl

lemma castVote_polls (s : Store) (pid uid oid : String) (now : Int)
    (nid : String) (fault : Option String) :
    (castVote s pid uid oid now nid fault).2.polls = s.polls := by
  unfold castVote
  cases hp : findPoll s pid with
  | none => rfl
  | some poll =>
    dsimp only
    split
    · rfl
    split
    · rfl
    cases ho : poll.options.find? (fun o => o.id == oid) with
    | none => rfl
    | some opt =>
      dsimp only
      cases hv : (userPollVotes s pid uid).find? (fun v => v.optionId == oid) with
      | some ev => rfl
      | none =>
        dsimp only
        split
        · exact insertVoteStep_polls _ pid uid oid nid opt.text fault
        · exact insertVoteStep_polls _ pid uid oid nid opt.text fault

/-- Claim C8: the poll status field only ever transitions forward: the
explicit close by the creator and the scheduled closure execution each
either leave every poll row's status unchanged or move it OPEN to CLOSED
(CLOSED is terminal in statusStep), and castVote never touches the poll
table at all. -/
theorem claimC8 (w : World) (pid rid : String) (s : Store) (jpid : String)
    (cpid cuid coid : String) (now : Int) (nid : String) (fault : Option String) :
    statusMonotone w.store (closePoll w pid rid).2.store ∧
    statusMonotone s (processPollCloseJob s jpid) ∧
    (castVote s cpid cuid coid now nid fault).2.polls = s.polls := by
  refine ⟨?_, ?_, castVote_polls s cpid cuid coid now nid fault⟩
  · rcases closePoll_store_cases w pid rid with h | h
    · rw [h]
      exact statusMonotone_refl _
    · rw [h]
      exact statusMonotone_setClosed _ _
  · rcases processPollCloseJob_store_cases s jpid with h | h
    · rw [h]
      exact statusMonotone_refl _
    · rw [h]
      exact statusMonotone_setClosed _ _

/-- Claim C8 witness: castVote on the concrete store leaves the poll table
unchanged. -/
theorem claimC8_witness :
    (castVote ⟨[pollColors], []⟩ "p1" "u1" "o1" 5 "w1" none).2.polls = [pollColors] :=
  (claimC8 worldC3 "p1" "u1" ⟨[pollColors], []⟩ "p1" "p1" "u1" "o1" 5 "w1" none).2.2

end VoteBot
